import Mathlib

/-!
Verification of the glue layer of the `ytube` repository: the yt-dlp wrapper
`downloader.py` (class `YouTubeDownloader`) and the Playwright feed scraper
`scraper.py` (`scrape_shorts`). Each definition below is a shallow embedding
of a piece of the Python source; line numbers refer to the source files.
-/

/-- Boolean test that the pattern list is a prefix of the second list,
comparing characters one by one (helper for the substring test). -/
def startsWithChars : List Char → List Char → Bool
  | [], _ => true
  | _ :: _, [] => false
  | a :: ps, c :: cs => a == c && startsWithChars ps cs

/-- Boolean test that the pattern occurs as a contiguous run inside the
second list: tried at every suffix via `startsWithChars`. -/
def containsChars (pat : List Char) : List Char → Bool
  | [] => startsWithChars pat []
  | c :: cs => startsWithChars pat (c :: cs) || containsChars pat cs

/-- Models the Python substring operator `pat in s` on strings: true when
`pat` occurs contiguously inside `s`. -/
def pyContains (s pat : String) : Bool := containsChars pat.data s.data

/-- Models the Python expression `quality.replace("p", "")`
(downloader.py line 63): the pattern is the single character "p" and the
replacement is empty, so every occurrence of the character is removed. -/
def stripAllP (q : String) : String := String.mk (q.data.filter (fun c => c != ('p')))

/-- One entry of the `postprocessors` list of a yt-dlp options dictionary
(downloader.py lines 51-55 and 132-136). -/
structure Postprocessor where
  key : String
  preferredcodec : String
  preferredquality : String
deriving DecidableEq

/-- The part of the yt-dlp options dictionary that `download` and
`download_playlist` construct: output template, whether a progress hook is
installed, the format-selection expression and the post-processing
directives (downloader.py lines 43-63 and 124-139). -/
structure YdlOpts where
  outtmpl : String
  hasProgressHook : Bool
  format : Option String
  postprocessors : List Postprocessor
deriving DecidableEq

/-- The fixed audio-extraction directive installed when `audio_only` is
true: FFmpegExtractAudio to mp3 at preferred quality "192"
(downloader.py lines 51-55, identical at lines 132-136). -/
def audioPostprocessors : List Postprocessor :=
  [⟨("FFmpegExtractAudio"), ("mp3"), ("192")⟩]

/-- Models the quality branch of `YouTubeDownloader.download`
(downloader.py lines 57-63): literal "best" and "worst" map to fixed
policies, anything else is embedded into a height-cap expression after
`quality.replace("p", "")`. -/
def downloadFormat (quality : String) : String :=
  if quality = ("best") then ("bestvideo+bestaudio/best")
  else if quality = ("worst") then ("worst")
  else ("bestvideo[height<=") ++ stripAllP quality ++ ("]+bestaudio/best")

/-- Models the options dictionary built by `YouTubeDownloader.download`
(downloader.py lines 43-63): base options with the single-video output
template and conditional progress hook, then either the audio-only
override (lines 48-56) or the video format selection (lines 57-63). -/
def downloadOpts (outputPath quality : String) (audioOnly showProgress : Bool) : YdlOpts :=
  let base : YdlOpts :=
    { outtmpl := outputPath ++ ("/%(title)s.%(ext)s")
      hasProgressHook := showProgress
      format := none
      postprocessors := [] }
  if audioOnly then
    { base with format := some ("bestaudio/best"), postprocessors := audioPostprocessors }
  else
    { base with format := some (downloadFormat quality) }

/-- Models the options dictionary built by `YouTubeDownloader.download_playlist`
(downloader.py lines 124-139): playlist-nested output template, an
unconditional progress hook, the same audio-only override, and — unlike
`download` — the bare conditional
`'bestvideo+bestaudio/best' if quality == 'best' else quality` (line 139). -/
def downloadPlaylistOpts (outputPath quality : String) (audioOnly : Bool) : YdlOpts :=
  let base : YdlOpts :=
    { outtmpl := outputPath ++ ("/%(playlist)s/%(title)s.%(ext)s")
      hasProgressHook := true
      format := none
      postprocessors := [] }
  if audioOnly then
    { base with format := some ("bestaudio/best"), postprocessors := audioPostprocessors }
  else
    { base with format := some (if quality = ("best") then ("bestvideo+bestaudio/best") else quality) }

/-- Models the error wrapping of `YouTubeDownloader.download`
(downloader.py line 75): `Exception(f"Download failed: \x7bstr(e)\x7d")`. -/
def wrapDownloadError (cause : String) : String := ("Download failed: ") ++ cause

/-- Models the error wrapping of `YouTubeDownloader.get_info`
(downloader.py line 110): `Exception(f"Failed to get info: \x7bstr(e)\x7d")`. -/
def wrapInfoError (cause : String) : String := ("Failed to get info: ") ++ cause

/-- Models the error wrapping of `YouTubeDownloader.download_playlist`
(downloader.py line 153): `Exception(f"Playlist download failed: \x7bstr(e)\x7d")`. -/
def wrapPlaylistError (cause : String) : String := ("Playlist download failed: ") ++ cause

/-- The event dictionary yt-dlp hands to a progress hook, restricted to the
four keys `_progress_hook` reads; a `none` field models an absent key. -/
structure ProgressEvent where
  status : Option String
  percentStr : Option String
  speedStr : Option String
  etaStr : Option String
deriving DecidableEq

/-- Models `YouTubeDownloader._progress_hook` (downloader.py lines 155-163).
The subscription `d['status']` raises `KeyError` when the key is absent,
modelled by `Except.error`; the three display fields are read with
`d.get(key, 'N/A')`, modelled by `Option.getD`. The value `Except.ok o`
means the hook returned normally, printing line `o` (or nothing). -/
def progressHook (d : ProgressEvent) : Except String (Option String) :=
  match d.status with
  | none => Except.error ("KeyError: status")
  | some s =>
    if s = ("downloading") then
      Except.ok (some (("\rDownloading: ") ++ d.percentStr.getD ("N/A") ++ (" at ")
        ++ d.speedStr.getD ("N/A") ++ (" ETA: ") ++ d.etaStr.getD ("N/A")))
    else if s = ("finished") then
      Except.ok (some ("\nDownload complete, processing..."))
    else
      Except.ok none

/-- A directory path as a list of segments; the empty list is the working
directory from which relative paths are resolved. -/
abbrev DirPath := List String

/-- Models `pathlib.Path.mkdir(exist_ok=True)` (no `parents=True`): a no-op
when the directory exists, creation when the parent exists, and
`FileNotFoundError` otherwise. The filesystem is the list of existing
directories. -/
def mkdirExistOk (fs : List DirPath) (d : DirPath) : Except String (List DirPath) :=
  if d ∈ fs then Except.ok fs
  else if d.dropLast ∈ fs then Except.ok (List.cons d fs)
  else Except.error ("FileNotFoundError")

/-- Models `YouTubeDownloader.__init__` (downloader.py lines 27-28): the
constructor stores the output path and runs `mkdir(exist_ok=True)` on it
before any `download` or `download_playlist` call is possible. -/
def initDownloader (fs : List DirPath) (outputPath : DirPath) : Except String (List DirPath) :=
  mkdirExistOk fs outputPath

/-- One playlist entry of the info dictionary yt-dlp returns, restricted to
the two keys `download_playlist` reads; `none` models an absent key. -/
structure PlaylistEntry where
  title : Option String
  webpageUrl : Option String
deriving DecidableEq

/-- The info dictionary returned by `extract_info` for a playlist URL:
`none` models a mapping without an `entries` key (a single video). -/
structure PlaylistInfo where
  entries : Option (List PlaylistEntry)
deriving DecidableEq

/-- The per-entry result `download_playlist` returns (title and source page
URL); absent upstream fields stay `none`. -/
structure PlaylistEntryResult where
  title : Option String
  url : Option String
deriving DecidableEq

/-- Models the result construction of `YouTubeDownloader.download_playlist`
(downloader.py lines 144-151): `info.get('entries', [])` then a list
comprehension mapping each entry to its `title` and `webpage_url`. -/
def playlistResults (info : PlaylistInfo) : List PlaylistEntryResult :=
  (info.entries.getD []).map (fun e => ⟨e.title, e.webpageUrl⟩)

/-- Lexicographic comparison of character lists by code point, the order
Python uses to compare strings: shorter is smaller on a tie, otherwise the
first differing character decides. -/
def charsLe : List Char → List Char → Bool
  | [], _ => true
  | _ :: _, [] => false
  | a :: as, b :: bs => if a = b then charsLe as bs else decide (a < b)

/-- Lexicographic order on strings by code point, the order `sorted` uses
on Python strings. -/
def strLe (a b : String) : Prop := charsLe a.data b.data = true

instance : DecidableRel strLe := fun a b => Bool.decEq (charsLe a.data b.data) true

/-- Models the link post-processing of `scrape_shorts` (scraper.py lines
24-27): keep the anchor targets containing "/shorts/", deduplicate with set
semantics and sort lexicographically (`sorted(set(shorts))`). -/
def scrapeLinks (links : List String) : List String :=
  List.insertionSort strLe (links.filter (fun x => pyContains x ("/shorts/"))).dedup

/-- Models the count printed by `scrape_shorts` (scraper.py line 26):
`len(shorts)`, the length of the filtered list before deduplication. -/
def scrapeCount (links : List String) : Nat :=
  (links.filter (fun x => pyContains x ("/shorts/"))).length

/-- The lines `scrape_shorts` prints (scraper.py lines 26-28): the count
line followed by one URL per line. -/
def scrapePrinted (links : List String) : List String :=
  List.cons (("Found: ") ++ toString (scrapeCount links)) (scrapeLinks links)

/-- The observable steps of one run of `scrape_shorts` (scraper.py lines
6-30), used to model resource teardown. -/
inductive ScrapeStep where
  | launch : ScrapeStep
  | goto : ScrapeStep
  | scroll : Nat → ScrapeStep
  | pause : Nat → ScrapeStep
  | evalLinks : ScrapeStep
  | printResults : ScrapeStep
  | closeBrowser : ScrapeStep
  | stopPlaywright : ScrapeStep
deriving DecidableEq

/-- The steps of the body of the `async with async_playwright()` block in
source order (scraper.py lines 8-30): launch, navigation, ten scroll/wait
iterations, link extraction, printing, and the happy-path
`browser.close()`. -/
def scrapeBodySteps : List ScrapeStep :=
  [ScrapeStep.launch, ScrapeStep.goto] ++
    ((List.range 10).map (fun i => [ScrapeStep.scroll i, ScrapeStep.pause i])).flatten ++
    [ScrapeStep.evalLinks, ScrapeStep.printResults, ScrapeStep.closeBrowser]

/-- Runs a list of steps in order until the first step at which the oracle
`failsAt` says an exception is raised: returns the executed steps (the
raising step included, as it was attempted) and whether the run finished
normally. -/
def runSteps (failsAt : ScrapeStep → Bool) : List ScrapeStep → List ScrapeStep × Bool
  | [] => ([], true)
  | s :: rest =>
    if failsAt s then ([s], false)
    else
      let r := runSteps failsAt rest
      (List.cons s r.1, r.2)

/-- Models one run of `scrape_shorts` under the failure oracle: the body
runs inside `async with async_playwright() as p`, whose `__aexit__` stops
the Playwright driver — terminating every browser it launched — on both
the normal and the exceptional exit, so the stop step is always appended
to the executed trace. -/
def scrapeRun (failsAt : ScrapeStep → Bool) : List ScrapeStep × Bool :=
  let r := runSteps failsAt scrapeBodySteps
  (r.1 ++ [ScrapeStep.stopPlaywright], r.2)

/-! Helper lemmas about the substring test and the lexicographic order. -/

theorem startsWithChars_self (l : List Char) : startsWithChars l l = true := by
  induction l with
  | nil => rfl
  | cons c cs ih => simp [startsWithChars, ih]

theorem containsChars_self (pat : List Char) : containsChars pat pat = true := by
  cases pat with
  | nil => rfl
  | cons c cs => simp [containsChars, startsWithChars_self]

theorem containsChars_append_left (pat pre s : List Char)
    (h : containsChars pat s = true) : containsChars pat (pre ++ s) = true := by
  induction pre with
  | nil => simpa using h
  | cons c cs ih => simp [containsChars, ih]

theorem pyContains_append_right (a b : String) : pyContains (a ++ b) b = true := by
  unfold pyContains
  rw [String.data_append]
  exact containsChars_append_left _ _ _ (containsChars_self _)

theorem charsLe_total : ∀ as bs : List Char, charsLe as bs = true ∨ charsLe bs as = true := by
  intro as
  induction as with
  | nil => intro bs; left; rfl
  | cons a as ih =>
    intro bs
    cases bs with
    | nil => right; rfl
    | cons b bs =>
      by_cases hab : a = b
      · subst hab
        rcases ih bs with h | h
        · left; simpa [charsLe] using h
        · right; simpa [charsLe] using h
      · rcases lt_or_gt_of_ne hab with h | h
        · left; simp [charsLe, hab, h]
        · right; simp [charsLe, Ne.symm hab, h]

theorem charsLe_trans : ∀ as bs cs : List Char,
    charsLe as bs = true → charsLe bs cs = true → charsLe as cs = true := by
  intro as
  induction as with
  | nil => intro bs cs _ _; rfl
  | cons a as ih =>
    intro bs cs h₁ h₂
    cases bs with
    | nil => simp [charsLe] at h₁
    | cons b bs =>
      cases cs with
      | nil => simp [charsLe] at h₂
      | cons c cs =>
        by_cases hab : a = b <;> by_cases hbc : b = c
        · subst hab; subst hbc
          simp only [charsLe, if_pos rfl] at h₁ h₂ ⊢
          exact ih bs cs h₁ h₂
        · subst hab
          simp only [charsLe, if_pos rfl, if_neg hbc] at h₁ h₂ ⊢
          exact h₂
        · subst hbc
          simp only [charsLe, if_pos rfl, if_neg hab] at h₁ h₂ ⊢
          exact h₁
        · simp only [charsLe, if_neg hab, if_neg hbc, decide_eq_true_eq] at h₁ h₂
          have hac : a < c := lt_trans h₁ h₂
          have : a ≠ c := ne_of_lt hac
          simp [charsLe, this, hac]

theorem strLe_isTotal : ∀ a b : String, strLe a b ∨ strLe b a := fun a b =>
  charsLe_total a.data b.data

theorem strLe_isTrans : ∀ a b c : String, strLe a b → strLe b c → strLe a c := fun a b c =>
  charsLe_trans a.data b.data c.data

theorem stripAllP_digits_append_p (ds : String) (h : ∀ c ∈ ds.data, c.isDigit = true) :
    stripAllP (ds ++ ("p")) = ds := by
  unfold stripAllP
  rw [String.data_append]
  have hp : (("p") : String).data.filter (fun c => c != ('p')) = [] := rfl
  rw [List.filter_append, hp, List.append_nil]
  have hds : ds.data.filter (fun c => c != ('p')) = ds.data := by
    apply List.filter_eq_self.mpr
    intro c hc
    have hd := h c hc
    have : c ≠ ('p') := by
      intro he
      rw [he] at hd
      exact absurd hd (by decide)
    simpa using this
  rw [hds]

theorem string_ne_of_getLast_ne {s t : String} (c : Char)
    (hs : s.data.getLast? = some c) (ht : t.data.getLast? ≠ some c) : s ≠ t := by
  intro he
  subst he
  exact ht hs

theorem append_p_data_getLast (ds : String) :
    (ds ++ ("p")).data.getLast? = some ('p') := by
  rw [String.data_append]
  exact List.getLast?_concat _

/-- C1: for `audio_only=false`, quality "best" yields the fixed
best-video-plus-best-audio expression, "worst" the fixed worst policy, and
a quality of the form "<N>p" a height cap at exactly N; but a malformed
quality is NOT passed through verbatim — the code applies
`quality.replace("p", "")` before embedding it, so "pear" is embedded as
"ear" and the original string does not occur in the expression. -/
theorem C1_counterexample :
    (downloadOpts ("downloads") ("pear") false true).format
        = some ("bestvideo[height<=ear]+bestaudio/best")
      ∧ pyContains ("bestvideo[height<=ear]+bestaudio/best") ("pear") = false :=
  ⟨by decide, by decide⟩

/-- C1 (amended): for `audio_only=false`, "best" and "worst" map to the
fixed policies; a quality of the form "<N>p" (digits followed by "p") is
embedded as a cap at exactly N lines combined with best audio; any other
quality is embedded into the height-cap expression with every occurrence
of "p" removed, without local validation. -/
theorem C1_format_selection :
    (∀ out prog, (downloadOpts out ("best") false prog).format
        = some ("bestvideo+bestaudio/best"))
    ∧ (∀ out prog, (downloadOpts out ("worst") false prog).format = some ("worst"))
    ∧ (∀ out prog ds, (∀ c ∈ ds.data, c.isDigit = true) →
        (downloadOpts out (ds ++ ("p")) false prog).format
          = some (("bestvideo[height<=") ++ ds ++ ("]+bestaudio/best")))
    ∧ (∀ out prog q, q ≠ ("best") → q ≠ ("worst") →
        (downloadOpts out q false prog).format
          = some (("bestvideo[height<=") ++ stripAllP q ++ ("]+bestaudio/best"))) := by
  refine ⟨fun out prog => rfl, fun out prog => rfl, ?_, ?_⟩
  · intro out prog ds h
    have hb : ds ++ ("p") ≠ ("best") :=
      string_ne_of_getLast_ne ('p') (append_p_data_getLast ds) (by decide)
    have hw : ds ++ ("p") ≠ ("worst") :=
      string_ne_of_getLast_ne ('p') (append_p_data_getLast ds) (by decide)
    simp only [downloadOpts, downloadFormat, if_neg hb, if_neg hw, Bool.false_eq_true,
      if_false, stripAllP_digits_append_p ds h]
  · intro out prog q hb hw
    simp only [downloadOpts, downloadFormat, if_neg hb, if_neg hw, Bool.false_eq_true,
      if_false]

theorem C1_format_selection_witness :
    (downloadOpts ("downloads") ("720p") false true).format
      = some ("bestvideo[height<=720]+bestaudio/best") := by
  have h := C1_format_selection.2.2.1 ("downloads") true ("720") (by decide)
  exact h

/-- C2: `download_playlist` does NOT build the same format-selection
expression as `download` for every argument: at quality "720p" with
`audio_only=false`, `download` derives the height-capped expression while
`download_playlist` passes the quality string through bare (line 139). -/
theorem C2_counterexample :
    (downloadPlaylistOpts ("downloads") ("720p") false).format = some ("720p")
    ∧ (downloadOpts ("downloads") ("720p") false true).format
        = some ("bestvideo[height<=720]+bestaudio/best")
    ∧ (downloadPlaylistOpts ("downloads") ("720p") false).format
        ≠ (downloadOpts ("downloads") ("720p") false true).format :=
  ⟨by decide, by decide, by decide⟩

/-- C2 (amended): the playlist output template nests a playlist-name
segment as claimed, and the configurations agree when `audio_only=true` or
the quality is the literal "best" or "worst"; for any other quality,
`download_playlist` uses the quality string itself as the format
expression instead of the height-capped expression `download` derives. -/
theorem C2_playlist_config :
    (∀ out q a, (downloadPlaylistOpts out q a).outtmpl
        = out ++ ("/%(playlist)s/%(title)s.%(ext)s")
      ∧ (downloadOpts out q a true).outtmpl = out ++ ("/%(title)s.%(ext)s"))
    ∧ (∀ out q, downloadPlaylistOpts out q true
        = { downloadOpts out q true true with
              outtmpl := out ++ ("/%(playlist)s/%(title)s.%(ext)s") })
    ∧ (∀ out a, (downloadPlaylistOpts out ("best") a).format
          = (downloadOpts out ("best") a true).format
        ∧ (downloadPlaylistOpts out ("worst") a).format
          = (downloadOpts out ("worst") a true).format
        ∧ (downloadPlaylistOpts out ("best") a).postprocessors
          = (downloadOpts out ("best") a true).postprocessors
        ∧ (downloadPlaylistOpts out ("worst") a).postprocessors
          = (downloadOpts out ("worst") a true).postprocessors)
    ∧ (∀ out q, q ≠ ("best") → (downloadPlaylistOpts out q false).format = some q
        ∧ (downloadPlaylistOpts out q false).postprocessors
          = (downloadOpts out q false true).postprocessors) := by
  refine ⟨?_, ?_, ?_, ?_⟩
  · intro out q a
    cases a <;> exact ⟨rfl, rfl⟩
  · intro out q
    rfl
  · intro out a
    cases a <;> exact ⟨rfl, rfl, rfl, rfl⟩
  · intro out q h
    constructor
    · simp only [downloadPlaylistOpts, Bool.false_eq_true, if_false, if_neg h]
    · rfl

theorem C2_playlist_config_witness :
    (downloadPlaylistOpts ("downloads") ("480p") false).format = some ("480p") :=
  (C2_playlist_config.2.2.2 ("downloads") ("480p") (by decide)).1

/-- C3: with `audio_only=true` both `download` and `download_playlist`
select "bestaudio/best" and attach the FFmpegExtractAudio directive with
codec mp3 and preferred quality "192"; the quality argument has no effect
on the configuration in this mode. -/
theorem C3_audio_only_config :
    ∀ out q q' prog,
      downloadOpts out q true prog = downloadOpts out q' true prog
      ∧ (downloadOpts out q true prog).format = some ("bestaudio/best")
      ∧ (downloadOpts out q true prog).postprocessors
          = [⟨("FFmpegExtractAudio"), ("mp3"), ("192")⟩]
      ∧ downloadPlaylistOpts out q true = downloadPlaylistOpts out q' true
      ∧ (downloadPlaylistOpts out q true).format = some ("bestaudio/best")
      ∧ (downloadPlaylistOpts out q true).postprocessors
          = [⟨("FFmpegExtractAudio"), ("mp3"), ("192")⟩] := by
  intro out q q' prog
  exact ⟨rfl, rfl, rfl, rfl, rfl, rfl⟩

/-- C4: the claim that the callback never raises is false — the code reads
`d['status']` by subscription (line 157), so an event dictionary without a
`status` key raises `KeyError` even when all display fields are present. -/
theorem C4_counterexample :
    progressHook ⟨none, some ("50.0%"), some ("1.00MiB/s"), some ("00:10")⟩
      = Except.error ("KeyError: status") := rfl

/-- C4 (amended): for every event dictionary that carries a `status` key
the callback returns normally without raising, and any missing progress
display field is rendered as the literal "N/A"; an event without a
`status` key raises `KeyError`. -/
theorem C4_no_raise_with_status :
    ∀ d s, d.status = some s →
      (∃ o, progressHook d = Except.ok o)
      ∧ (s = ("downloading") →
          progressHook d = Except.ok (some (("\rDownloading: ")
            ++ d.percentStr.getD ("N/A") ++ (" at ") ++ d.speedStr.getD ("N/A")
            ++ (" ETA: ") ++ d.etaStr.getD ("N/A"))))
      ∧ (s ≠ ("downloading") → s = ("finished") →
          progressHook d = Except.ok (some ("\nDownload complete, processing...")))
      ∧ (s ≠ ("downloading") → s ≠ ("finished") → progressHook d = Except.ok none) := by
  intro d s h
  refine ⟨?_, ?_, ?_, ?_⟩
  · simp only [progressHook, h]
    by_cases h₁ : s = ("downloading")
    · exact ⟨_, by rw [if_pos h₁]⟩
    · by_cases h₂ : s = ("finished")
      · exact ⟨_, by rw [if_neg h₁, if_pos h₂]⟩
      · exact ⟨_, by rw [if_neg h₁, if_neg h₂]⟩
  · intro h₁
    simp only [progressHook, h]
    rw [if_pos h₁]
  · intro h₁ h₂
    simp only [progressHook, h]
    rw [if_neg h₁, if_pos h₂]
  · intro h₁ h₂
    simp only [progressHook, h]
    rw [if_neg h₁, if_neg h₂]

theorem C4_no_raise_with_status_witness :
    progressHook ⟨some ("downloading"), none, none, none⟩
      = Except.ok (some ("\rDownloading: N/A at N/A ETA: N/A")) := by
  have h := (C4_no_raise_with_status ⟨some ("downloading"), none, none, none⟩
    ("downloading") rfl).2.1 rfl
  exact h

/-- C5: the wrapped message of `get_info` is "Failed to get info: <cause>",
which neither equals nor contains the phrase "info lookup failed" the
claim states. -/
theorem C5_counterexample :
    wrapInfoError ("boom") = ("Failed to get info: boom")
    ∧ pyContains (wrapInfoError ("boom")) ("info lookup failed") = false :=
  ⟨rfl, by decide⟩

/-- C5 (amended): every engine error is re-raised as the single generic
wrapped error whose message contains the original cause as a substring;
the wrapping prefixes are "Download failed: ", "Failed to get info: " (not
"info lookup failed") and "Playlist download failed: ". -/
theorem C5_error_wrapping :
    ∀ cause,
      pyContains (wrapDownloadError cause) cause = true
      ∧ pyContains (wrapInfoError cause) cause = true
      ∧ pyContains (wrapPlaylistError cause) cause = true
      ∧ wrapDownloadError cause = ("Download failed: ") ++ cause
      ∧ wrapInfoError cause = ("Failed to get info: ") ++ cause
      ∧ wrapPlaylistError cause = ("Playlist download failed: ") ++ cause := by
  intro cause
  exact ⟨pyContains_append_right _ _, pyContains_append_right _ _,
    pyContains_append_right _ _, rfl, rfl, rfl⟩

/-- C6: whenever the constructor succeeds — which it must before any
`download` or `download_playlist` call is possible — the configured output
directory exists, re-running the creation is a no-op on the resulting
filesystem (idempotence), and on a first-ever run with the directory
absent but its parent present the directory is created. -/
theorem C6_output_dir_exists :
    (∀ fs out fs', initDownloader fs out = Except.ok fs' →
      out ∈ fs' ∧ initDownloader fs' out = Except.ok fs')
    ∧ (∀ fs out, out ∉ fs → out.dropLast ∈ fs →
        initDownloader fs out = Except.ok (List.cons out fs) ∧ out ∈ List.cons out fs) := by
  constructor
  · intro fs out fs' h
    unfold initDownloader mkdirExistOk at h ⊢
    by_cases h₁ : out ∈ fs
    · rw [if_pos h₁] at h
      cases h
      exact ⟨h₁, if_pos h₁⟩
    · rw [if_neg h₁] at h
      by_cases h₂ : out.dropLast ∈ fs
      · rw [if_pos h₂] at h
        cases h
        have hm : out ∈ List.cons out fs := List.mem_cons_self _ _
        exact ⟨hm, if_pos hm⟩
      · rw [if_neg h₂] at h
        cases h
  · intro fs out h₁ h₂
    unfold initDownloader mkdirExistOk
    rw [if_neg h₁, if_pos h₂]
    exact ⟨rfl, List.mem_cons_self _ _⟩

theorem C6_output_dir_exists_witness :
    ([("downloads")] : DirPath) ∈ ([[("downloads")], []] : List DirPath)
    ∧ initDownloader ([[("downloads")], []]) ([("downloads")])
        = Except.ok ([[("downloads")], []]) :=
  C6_output_dir_exists.1 ([[]]) ([("downloads")]) ([[("downloads")], []]) rfl

/-- C7: the emitted link list is lexicographically sorted, duplicate-free,
and contains exactly the collected anchor targets that contain "/shorts/"
as a substring; on the example input of the claim it yields exactly the
two shorts URLs. -/
theorem C7_scrape_links :
    (∀ links,
      List.Sorted strLe (scrapeLinks links)
      ∧ (scrapeLinks links).Nodup
      ∧ (∀ x, x ∈ scrapeLinks links ↔ x ∈ links ∧ pyContains x ("/shorts/") = true))
    ∧ scrapeLinks (["https://x/shorts/1", "https://x/other", "https://x/shorts/2",
        "https://x/shorts/1"])
      = (["https://x/shorts/1", "https://x/shorts/2"]) := by
  constructor
  · intro links
    haveI htot : IsTotal String strLe := ⟨strLe_isTotal⟩
    haveI htr : IsTrans String strLe := ⟨strLe_isTrans⟩
    refine ⟨List.sorted_insertionSort strLe _, ?_, ?_⟩
    · unfold scrapeLinks
      exact ((List.perm_insertionSort strLe _).nodup_iff).mpr (List.nodup_dedup _)
    · intro x
      unfold scrapeLinks
      rw [List.mem_insertionSort, List.mem_dedup, List.mem_filter]
  · decide

/-- C8: the printed count is `len(shorts)` computed on the filtered list
BEFORE deduplication (scraper.py line 26), while the printed URLs are the
deduplicated list: on an input with a duplicated shorts link the count
line says 2 but only one URL line follows, refuting the claim that the
count equals the number of URL lines printed. -/
theorem C8_counterexample :
    scrapeCount (["https://x/shorts/1", "https://x/shorts/1"]) = 2
    ∧ (scrapeLinks (["https://x/shorts/1", "https://x/shorts/1"])).length = 1
    ∧ scrapePrinted (["https://x/shorts/1", "https://x/shorts/1"])
        = [("Found: 2"), ("https://x/shorts/1")] :=
  ⟨by decide, by decide, by decide⟩

/-- C8 (amended): the scraper prints "Found: <N>" followed by the sorted
URL lines, where N is the number of matching anchor targets before
deduplication; N is an upper bound on the number of URL lines printed,
with equality exactly when the filtered list contains no duplicates. -/
theorem C8_count_line :
    ∀ links,
      scrapePrinted links
        = List.cons (("Found: ") ++ toString (scrapeCount links)) (scrapeLinks links)
      ∧ (scrapeLinks links).length ≤ scrapeCount links
      ∧ ((links.filter (fun x => pyContains x ("/shorts/"))).Nodup →
          scrapeCount links = (scrapeLinks links).length) := by
  intro links
  refine ⟨rfl, ?_, ?_⟩
  · unfold scrapeLinks scrapeCount
    rw [(List.perm_insertionSort strLe _).length_eq]
    exact List.Sublist.length_le (List.dedup_sublist _)
  · intro h
    unfold scrapeLinks scrapeCount
    rw [(List.perm_insertionSort strLe _).length_eq, List.dedup_eq_self.mpr h]

theorem C8_count_line_witness :
    scrapeCount (["https://x/shorts/1"]) = (scrapeLinks (["https://x/shorts/1"])).length :=
  (C8_count_line (["https://x/shorts/1"])).2.2 (by decide)

/-- C9: for every failure oracle — whichever body step raises, or none —
the executed trace of a scrape run ends with the scoped-cleanup step of the
`async with async_playwright()` block, whose exit stops the Playwright
driver and with it every browser session it launched; teardown therefore
occurs on every path, including when navigation, scrolling or link
extraction raises mid-run. -/
theorem C9_teardown :
    ∀ failsAt,
      (scrapeRun failsAt).1.getLast? = some ScrapeStep.stopPlaywright
      ∧ ScrapeStep.stopPlaywright ∈ (scrapeRun failsAt).1 := by
  intro f
  constructor
  · exact List.getLast?_concat _
  · exact List.mem_append_right _ (List.mem_singleton_self _)

/-- C10: when the info mapping lacks an `entries` sequence the playlist
result is the empty list rather than an error; when entries are present
the result has one element per entry in the same order, carrying the
entry's `title` and `webpage_url` as optional values (absent fields stay
absent rather than defaulting to empty strings). -/
theorem C10_playlist_entries :
    (∀ info, info.entries = none → playlistResults info = [])
    ∧ (∀ es, (playlistResults ⟨some es⟩).length = es.length)
    ∧ (∀ (es : List PlaylistEntry) (i : Nat), (playlistResults ⟨some es⟩)[i]?
        = (es[i]?).map (fun (e : PlaylistEntry) =>
            (⟨e.title, e.webpageUrl⟩ : PlaylistEntryResult))) := by
  refine ⟨?_, ?_, ?_⟩
  · intro info h
    unfold playlistResults
    rw [h]
    rfl
  · intro es
    simp [playlistResults]
  · intro es i
    simp [playlistResults]

theorem C10_playlist_entries_witness : playlistResults ⟨none⟩ = [] :=
  C10_playlist_entries.1 ⟨none⟩ rfl
